import Mathlib

/-!
Shallow embedding of `src/ofac_mcp_sse.py` (OFAC MCP tool): two operations,
`get_ofac_party_info` and `search_party`, that validate arguments, build one
HTTP GET request, and normalize the remote outcome into a two-variant
success/error envelope.  The remote service is modelled as a function from
the issued request to a behaviour (a response, a transport error, or any
other exception raised by the client call); each operation also returns the
list of requests it issued, so "no network call" is "empty list".
-/

/-- JSON values, as Python's `json` module materializes them (numbers kept as
integers: no claim involves fractional numbers). -/
inductive JValue where
  | null : JValue
  | bool : Bool → JValue
  | num : Int → JValue
  | str : String → JValue
  | arr : List JValue → JValue
  | obj : List (String × JValue) → JValue
deriving Repr

/-- Python `dict.get(key)` on a JSON object's entries: first binding wins
(keys of a parsed JSON object are unique). -/
def lookupKey : List (String × JValue) → String → Option JValue
  | [], _ => Option.none
  | (k, v) :: rest, key => if k = key then Option.some v else lookupKey rest key

/-- Lookup in a string-valued parameter list (the outbound query parameters). -/
def lookupParam : List (String × String) → String → Option String
  | [], _ => Option.none
  | (k, v) :: rest, key => if k = key then Option.some v else lookupParam rest key

/-- The Python type name of a JSON value, as used in runtime error messages. -/
def pyTypeName : JValue → String
  | .null => "NoneType"
  | .bool _ => "bool"
  | .num _ => "int"
  | .str _ => "str"
  | .arr _ => "list"
  | .obj _ => "dict"

/-- `str(e)` for the `AttributeError` raised by `j.get(...)` when the parsed
body is not a dict. -/
def noAttrGet (j : JValue) : String :=
  pyTypeName j ++ " object has no attribute get"

/-- Python `len(...)` over a JSON value: defined on str, list and dict,
raises `TypeError` otherwise (hit by `len(data)` in the search success log). -/
def pyLen : JValue → Except String Nat
  | .str s => .ok s.length
  | .arr xs => .ok xs.length
  | .obj kvs => .ok kvs.length
  | j => .error ("object of type " ++ pyTypeName j ++ " has no len()")

/-- A received HTTP response: status code, raw body text, and the result of
`resp.json()` (`.error` carries the decode exception's message). -/
structure HttpResponse where
  status : Nat
  text : String
  json : Except String JValue
deriving Repr

/-- What the remote side does with one issued request: return a response,
fail with an `httpx.RequestError` (transport failure), or raise any other
exception from the client call.  This ranges over every behaviour of the
remote service visible to the code. -/
inductive RemoteBehavior where
  | respond (r : HttpResponse)
  | requestError (msg : String)
  | otherFailure (msg : String)

/-- One outbound HTTP GET: endpoint URL, query parameters in insertion
order, timeout in seconds (`timeout=10.0` in the source). -/
structure Request where
  endpoint : String
  params : List (String × String)
  timeout : Nat
deriving Repr

/-- The normalized outcome dict: `{"status": "success", "data": ...}` or
`{"status": "error", "message": ...}`.  The message slot holds whatever
Python value was put there (usually a string). -/
inductive Outcome where
  | success (data : JValue)
  | error (message : JValue)
deriving Repr

/-- A dynamically typed Python argument value, as the `limit` parameter can
receive when the declared `int` annotation is not enforced. -/
inductive PyVal where
  | noneVal : PyVal
  | int (n : Int) : PyVal
  | str (s : String) : PyVal
  | bool (b : Bool) : PyVal

/-- Python truthiness for the values of `PyVal` (`limit or 100`,
`if country:` and the like). -/
def truthy : PyVal → Bool
  | .noneVal => false
  | .int n => n != 0
  | .str s => s != ""
  | .bool b => b

/-- Python `str.strip()`: remove whitespace from both ends (modelled over
the character list, so that it computes by reduction). -/
def pyStrip (s : String) : String :=
  ⟨((s.data.dropWhile Char.isWhitespace).reverse.dropWhile Char.isWhitespace).reverse⟩

/-- Python `str.lower()` (ASCII case mapping suffices for the claims). -/
def pyLower (s : String) : String := ⟨s.data.map Char.toLower⟩

/-- Python `s or d` for an optional string argument: `None` and `""` are
falsy and give the default. -/
def orDefault (s : Option String) (d : String) : String :=
  match s with
  | Option.none => d
  | Option.some t => if t = "" then d else t

/-- Python `int(s)` on a string: optional surrounding whitespace, optional
sign, then decimal digits; anything else raises `ValueError`. -/
def pyIntOfString (s : String) : Except String Int :=
  let t := (pyStrip s).data
  let (sign, digits) :=
    match t with
    | '-' :: ds => ((-1 : Int), ds)
    | '+' :: ds => ((1 : Int), ds)
    | ds => ((1 : Int), ds)
  if digits.length > 0 && digits.all Char.isDigit then
    .ok (sign * (digits.foldl (fun a c => a * 10 + (c.toNat - 48)) (0 : Nat) : Nat))
  else
    .error ("invalid literal for int() with base 10: " ++ s)

/-- Python `int(v)` over the modelled dynamic values. -/
def pyInt : PyVal → Except String Int
  | .int n => .ok n
  | .bool b => .ok (if b then 1 else 0)
  | .str s => pyIntOfString s
  | .noneVal => .error "int() argument cannot be NoneType"

/-- Line 147 of the source: `limit = max(1, min(int(limit or 100), 1000))`.
`.error` is the `ValueError`/`TypeError` escaping from `int(...)`; note this
line runs before the `try` block, so such an exception is not caught. -/
def forwardedLimit (limit : PyVal) : Except String Int :=
  (pyInt (if truthy limit then limit else .int 100)).map
    (fun v => max 1 (min v 1000))

/-- `ALLOWED_SCOPES = {"all", "name", "alias", "address"}` (a Python set;
modelled as a list in the source's literal order — iteration order of the
set, which only affects the error message text, is unspecified in CPython). -/
def ALLOWED_SCOPES : List String := ["all", "name", "alias", "address"]

/-- The message of the scope validation error:
`f"scope must be one of {', '.join(ALLOWED_SCOPES)}"`. -/
def scopeErrMsg : String :=
  "scope must be one of " ++ String.intercalate ", " ALLOWED_SCOPES

/-- Python `s[:300]`: the first 300 characters. -/
def pySlice300 (s : String) : String := ⟨s.data.take 300⟩

/-- `_extract_error_message(resp)`: try `resp.json()` and return its
`message` field, defaulting to `"API Error: {status}"`; on any exception
(parse failure, or `.get` on a non-dict) fall back to
`f"API Error: {status} - {text}"[:300]`. -/
def extractErrorMessage (resp : HttpResponse) : JValue :=
  match resp.json with
  | .ok (.obj kvs) =>
      (lookupKey kvs "message").getD
        (.str ("API Error: " ++ toString resp.status))
  | _ =>
      .str (pySlice300
        ("API Error: " ++ toString resp.status ++ " - " ++ resp.text))

/-- `j.get("resultCd") is True`: identity comparison with the boolean
`True`, so only the JSON boolean `true` passes (not `1`, `"true"`, `null`
or an absent field). -/
def isTrueCd (o : Option JValue) : Bool :=
  match o with
  | Option.some (.bool true) => true
  | _ => false

/-- `httpx.Response.raise_for_status()` raises unless the status is 2xx. -/
def is2xx (status : Nat) : Bool := 200 ≤ status && status ≤ 299

/-- The `try`/`except` body of `get_ofac_party_info` applied to the remote's
behaviour: raise_for_status, parse JSON, check `resultCd is True`, return
`data` (default `{}`) on success, else the body's `message`
(default "API returned error"); the three `except` arms map
`HTTPStatusError`, `RequestError` and any other exception to error
outcomes. -/
def lookupHandle : RemoteBehavior → Outcome
  | .respond r =>
      if is2xx r.status then
        match r.json with
        | .error e => .error (.str e)
        | .ok (.obj kvs) =>
            if isTrueCd (lookupKey kvs "resultCd") then
              .success ((lookupKey kvs "data").getD (.obj []))
            else
              .error ((lookupKey kvs "message").getD (.str "API returned error"))
        | .ok j => .error (.str (noAttrGet j))
      else .error (extractErrorMessage r)
  | .requestError msg => .error (.str msg)
  | .otherFailure msg => .error (.str msg)

/-- The `try`/`except` body of `search_party`: same shape as the lookup
handler, but the success default for `data` is `[]`, and the success log
line computes `len(data)`, which raises (and is caught by the catch-all
arm) when `data` is not sized. -/
def searchHandle : RemoteBehavior → Outcome
  | .respond r =>
      if is2xx r.status then
        match r.json with
        | .error e => .error (.str e)
        | .ok (.obj kvs) =>
            if isTrueCd (lookupKey kvs "resultCd") then
              let data := (lookupKey kvs "data").getD (.arr [])
              match pyLen data with
              | .ok _ => .success data
              | .error e => .error (.str e)
            else
              .error ((lookupKey kvs "message").getD (.str "API returned error"))
        | .ok j => .error (.str (noAttrGet j))
      else .error (extractErrorMessage r)
  | .requestError msg => .error (.str msg)
  | .otherFailure msg => .error (.str msg)

/-- Endpoint configuration: `API_ENDPOINT = os.getenv("API_ENDPOINT",
DEFAULT_BASE)` and `SEARCH_ENDPOINT = os.getenv("SEARCH_ENDPOINT",
f"{DEFAULT_BASE}/search")`. -/
structure Config where
  API_ENDPOINT : String
  SEARCH_ENDPOINT : String

def DEFAULT_BASE : String := "https://hello-render-rbg8.onrender.com/ofacParty"

/-- Build the configuration from the environment (getenv with defaults). -/
def mkConfig (env : String → Option String) : Config :=
  { API_ENDPOINT := (env "API_ENDPOINT").getD DEFAULT_BASE
    SEARCH_ENDPOINT := (env "SEARCH_ENDPOINT").getD (DEFAULT_BASE ++ "/search") }

/-- `get_ofac_party_info(party_id)`: build `params = {"partyId":
str(party_id)}`, issue one GET against `API_ENDPOINT` with `timeout=10.0`,
and normalize the behaviour.  The second component is the list of requests
issued. -/
def get_ofac_party_info (cfg : Config) (party_id : Int)
    (remote : Request → RemoteBehavior) : Outcome × List Request :=
  let req : Request :=
    { endpoint := cfg.API_ENDPOINT
      params := [("partyId", toString party_id)]
      timeout := 10 }
  (lookupHandle (remote req), [req])

/-- `if country: params["country"] = country` (and likewise for city):
include the filter only when it is a truthy (non-empty) string. -/
def optionalFilter (k : String) (v : Option String) : List (String × String) :=
  match v with
  | Option.some s => if s != "" then [(k, s)] else []
  | Option.none => []

/-- `search_party(q, scope, country, city, limit, fuzzy)`.  Validation and
limit coercion run before the `try` block, so a failing `int(limit or 100)`
propagates as an exception: the result is `Except.error` with the
exception's message.  Otherwise the result is `Except.ok` of the normalized
outcome together with the list of issued requests (empty when validation
rejects before the network call). -/
def search_party (cfg : Config) (q scope country city : Option String)
    (limit : PyVal) (fuzzy : Bool) (remote : Request → RemoteBehavior) :
    Except String (Outcome × List Request) :=
  let qv := pyStrip (orDefault q "")
  if qv.length < 2 then
    .ok (.error (.str "q must be at least 2 characters"), [])
  else
    let scopev := pyLower (orDefault scope "all")
    if ALLOWED_SCOPES.contains scopev then
      match forwardedLimit limit with
      | .error e => .error e
      | .ok lim =>
          let params : List (String × String) :=
            [("q", qv), ("scope", scopev), ("limit", toString lim)]
              ++ optionalFilter "country" country ++ optionalFilter "city" city
              ++ (if fuzzy then [("fuzzy", "true")] else [])
          let req : Request :=
            { endpoint := cfg.SEARCH_ENDPOINT, params := params, timeout := 10 }
          .ok (searchHandle (remote req), [req])
    else
      .ok (.error (.str scopeErrMsg), [])

/-! ### Concrete fixtures used by scenario theorems and counterexamples -/

/-- Configuration with no environment overrides (the defaults). -/
def cfg0 : Config := mkConfig (fun _ => Option.none)

/-- A body with `resultCd: true` and no `data` field. -/
def okBody : JValue := JValue.obj [("resultCd", JValue.bool true)]

/-- A remote that answers every request with HTTP 200 and `okBody`. -/
def remoteOK : Request → RemoteBehavior := fun _ =>
  RemoteBehavior.respond { status := 200, text := "\x7b\"resultCd\": true\x7d", json := Except.ok okBody }

/-- Body for the lookup round trip: `resultCd: true, data: {"id": 7}`. -/
def body7 : JValue :=
  JValue.obj [("resultCd", JValue.bool true), ("data", JValue.obj [("id", JValue.num 7)])]

/-- A remote answering every request with HTTP 200 and `body7`. -/
def remote7 : Request → RemoteBehavior := fun _ =>
  RemoteBehavior.respond { status := 200, text := "", json := Except.ok body7 }

/-- A remote answering HTTP 500 with JSON body containing message "db down". -/
def remote500 : Request → RemoteBehavior := fun _ =>
  RemoteBehavior.respond
    { status := 500, text := "\x7b\"message\": \"db down\"\x7d"
      json := Except.ok (JValue.obj [("message", JValue.str "db down")]) }

/-! ### Helper lemmas -/

/-- Inversion for `search_party`: a normal return is either one of the two
validation rejections (with no request issued) or the single network request
carrying exactly the parameters the source builds. -/
theorem search_party_cases
    {cfg : Config} {q scope country city : Option String} {limit : PyVal}
    {fuzzy : Bool} {remote : Request → RemoteBehavior} {out : Outcome}
    {reqs : List Request}
    (h : search_party cfg q scope country city limit fuzzy remote =
      Except.ok (out, reqs)) :
    (out = Outcome.error (JValue.str "q must be at least 2 characters") ∧ reqs = []) ∨
    (out = Outcome.error (JValue.str scopeErrMsg) ∧ reqs = []) ∨
    (∃ lim req, forwardedLimit limit = Except.ok lim ∧
      req = { endpoint := cfg.SEARCH_ENDPOINT
              params := [("q", pyStrip (orDefault q "")),
                         ("scope", pyLower (orDefault scope "all")),
                         ("limit", toString lim)]
                ++ optionalFilter "country" country ++ optionalFilter "city" city
                ++ (if fuzzy then [("fuzzy", "true")] else [])
              timeout := 10 } ∧
      reqs = [req] ∧ out = searchHandle (remote req)) := by
  simp only [search_party] at h
  split at h
  · simp only [Except.ok.injEq, Prod.mk.injEq] at h
    exact Or.inl ⟨h.1.symm, h.2.symm⟩
  · split at h
    · split at h
      · simp at h
      · rename_i lim hlim
        simp only [Except.ok.injEq, Prod.mk.injEq] at h
        exact Or.inr (Or.inr ⟨lim, _, hlim, rfl, h.2.symm, h.1.symm⟩)
    · simp only [Except.ok.injEq, Prod.mk.injEq] at h
      exact Or.inr (Or.inl ⟨h.1.symm, h.2.symm⟩)

/-- The value produced by the limit coercion-and-clamp line is in [1, 1000]. -/
theorem forwardedLimit_bounds (limit : PyVal) (v : Int)
    (h : forwardedLimit limit = Except.ok v) : 1 ≤ v ∧ v ≤ 1000 := by
  unfold forwardedLimit at h
  rcases hp : pyInt (if truthy limit then limit else PyVal.int 100) with e | w <;>
    rw [hp] at h <;> simp [Except.map] at h
  subst h
  omega

/-- A prefix added by `optionalFilter` under a different key is transparent
to `lookupParam`. -/
theorem lookupParam_optionalFilter_ne (k : String) (v : Option String)
    (rest : List (String × String)) (key : String) (hk : k ≠ key) :
    lookupParam (optionalFilter k v ++ rest) key = lookupParam rest key := by
  rcases v with _ | s
  · simp [optionalFilter]
  · by_cases hs : s = ""
    · simp [optionalFilter, hs]
    · simp [optionalFilter, hs, lookupParam, hk]

/-! ### Claim theorems -/

/-- C1 (counterexample): with the non-numeric limit value "abc" (and a valid
query and scope), `search_party` raises `ValueError` from `int(limit or
100)` before the `try` block, so an exception escapes the operation
boundary: the result is `Except.error`, not a normal Outcome. -/
theorem C1_counterexample :
    search_party cfg0 (Option.some "ab") Option.none Option.none Option.none
      (PyVal.str "abc") false remoteOK =
    Except.error ("invalid literal for int() with base 10: abc") := rfl

/-- C1 (amended): for every behaviour of the remote service both operations
return a normal value of the two-variant Outcome shape, and `search_party`
raises no exception for every raw `q` and `scope` argument and every limit
value on which the coercion `int(limit or 100)` succeeds — in particular
every limit of the declared `int` type.  (Non-numeric limit values make the
coercion raise before the `try` block, so for those an exception escapes.) -/
theorem C1_operations_return_normal_outcome :
    (∀ (cfg : Config) (pid : Int) (remote : Request → RemoteBehavior),
      (∃ d, (get_ofac_party_info cfg pid remote).1 = Outcome.success d) ∨
      (∃ m, (get_ofac_party_info cfg pid remote).1 = Outcome.error m))
    ∧ (∀ (cfg : Config) (q scope country city : Option String) (limit : PyVal)
        (fuzzy : Bool) (remote : Request → RemoteBehavior),
        (forwardedLimit limit).isOk = true →
        ∃ out reqs, search_party cfg q scope country city limit fuzzy remote =
          Except.ok (out, reqs))
    ∧ (∀ (cfg : Config) (q scope country city : Option String) (n : Int)
        (fuzzy : Bool) (remote : Request → RemoteBehavior),
        ∃ out reqs, search_party cfg q scope country city (PyVal.int n) fuzzy remote =
          Except.ok (out, reqs)) := by
  refine ⟨?_, ?_, ?_⟩
  · intro cfg pid remote
    rcases h : (get_ofac_party_info cfg pid remote).1 with d | m
    · exact Or.inl ⟨d, rfl⟩
    · exact Or.inr ⟨m, rfl⟩
  · intro cfg q scope country city limit fuzzy remote hok
    simp only [search_party]
    split
    · exact ⟨_, _, rfl⟩
    · split
      · rcases hl : forwardedLimit limit with e | lim
        · rw [hl] at hok; simp [Except.isOk, Except.toBool] at hok
        · exact ⟨_, _, rfl⟩
      · exact ⟨_, _, rfl⟩
  · intro cfg q scope country city n fuzzy remote
    simp only [search_party]
    split
    · exact ⟨_, _, rfl⟩
    · split
      · rcases hl : forwardedLimit (PyVal.int n) with e | lim
        · exfalso
          unfold forwardedLimit at hl
          rcases hp : pyInt (if truthy (PyVal.int n) then PyVal.int n else PyVal.int 100)
            with e2 | w
          · by_cases hn : (n : Int) = 0 <;> simp [truthy, pyInt, hn] at hp
          · rw [hp] at hl; simp [Except.map] at hl
        · exact ⟨_, _, rfl⟩
      · exact ⟨_, _, rfl⟩

/-- C1 (witness): the amended theorem applied at a concrete coercible limit
value (the numeric string " 7 ") and a concrete remote behaviour. -/
theorem C1_witness :
    (forwardedLimit (PyVal.str " 7 ")).isOk = true ∧
    ∃ out reqs, search_party cfg0 (Option.some "ab") Option.none Option.none
      Option.none (PyVal.str " 7 ") false remoteOK = Except.ok (out, reqs) :=
  ⟨rfl, C1_operations_return_normal_outcome.2.1 cfg0 (Option.some "ab")
    Option.none Option.none Option.none (PyVal.str " 7 ") false remoteOK rfl⟩

/-- C2 (counterexample): `limit = 0` is below 1 but, being falsy, falls back
to the default 100 instead of being raised to 1: the outbound request
carries `limit = "100"`. -/
theorem C2_counterexample :
    search_party cfg0 (Option.some "ab") Option.none Option.none Option.none
      (PyVal.int 0) false remoteOK =
    Except.ok (Outcome.success (JValue.arr []),
      [{ endpoint := cfg0.SEARCH_ENDPOINT
         params := [("q", "ab"), ("scope", "all"), ("limit", "100")]
         timeout := 10 }])
    ∧ ("100" : String) ≠ "1" := ⟨rfl, by decide⟩

/-- C2 (amended): whenever the coercion `int(limit or 100)` succeeds, the
limit forwarded in the outbound request satisfies 1 ≤ limit ≤ 1000; nonzero
values below 1 are raised to 1 (limit = -5 gives 1), values above 1000 are
capped (limit = 5000 gives 1000), and absent or falsy values — none, and
also 0 — fall back to 100.  (Non-numeric values instead raise an uncaught
exception, and 0, being falsy, gives 100 rather than 1.) -/
theorem C2_limit_forwarded_in_range :
    (∀ (limit : PyVal) (v : Int), forwardedLimit limit = Except.ok v →
      1 ≤ v ∧ v ≤ 1000)
    ∧ forwardedLimit (PyVal.int (-5)) = Except.ok 1
    ∧ forwardedLimit (PyVal.int 5000) = Except.ok 1000
    ∧ forwardedLimit PyVal.noneVal = Except.ok 100
    ∧ forwardedLimit (PyVal.int 0) = Except.ok 100
    ∧ (∀ (cfg : Config) (q scope country city : Option String) (limit : PyVal)
        (fuzzy : Bool) (remote : Request → RemoteBehavior) (out : Outcome)
        (reqs : List Request) (req : Request),
        search_party cfg q scope country city limit fuzzy remote =
          Except.ok (out, reqs) →
        req ∈ reqs →
        ∃ v, forwardedLimit limit = Except.ok v ∧
          lookupParam req.params "limit" = Option.some (toString v) ∧
          1 ≤ v ∧ v ≤ 1000) := by
  refine ⟨forwardedLimit_bounds, rfl, rfl, rfl, rfl, ?_⟩
  intro cfg q scope country city limit fuzzy remote out reqs req h hmem
  rcases search_party_cases h with ⟨_, hr⟩ | ⟨_, hr⟩ | ⟨lim, req', hl, hreq', hr, _⟩
  · rw [hr] at hmem; simp at hmem
  · rw [hr] at hmem; simp at hmem
  · rw [hr] at hmem
    simp only [List.mem_singleton] at hmem
    subst hmem; subst hreq'
    refine ⟨lim, hl, ?_, forwardedLimit_bounds limit lim hl⟩
    simp [lookupParam]

/-- C2 (witness): the in-range part of the theorem applied at the concrete
coercible value limit = -5, whose forwarded value is 1. -/
theorem C2_witness : 1 ≤ (1 : Int) ∧ (1 : Int) ≤ 1000 :=
  C2_limit_forwarded_in_range.1 (PyVal.int (-5)) 1 (by rfl)

/-- C3: for every query whose stripped length is below 2 (over all raw
arguments and remote behaviours), `search_party` returns the error outcome
with message "q must be at least 2 characters" and issues no request. -/
theorem C3_short_query_rejected
    (cfg : Config) (q scope country city : Option String) (limit : PyVal)
    (fuzzy : Bool) (remote : Request → RemoteBehavior)
    (h : (pyStrip (orDefault q "")).length < 2) :
    search_party cfg q scope country city limit fuzzy remote =
      Except.ok (Outcome.error (JValue.str "q must be at least 2 characters"), []) := by
  simp only [search_party]
  rw [if_pos h]

/-- C3 (witness): the theorem applied at the one-character query "a". -/
theorem C3_witness :
    (pyStrip (orDefault (Option.some "a") "")).length < 2 ∧
    search_party cfg0 (Option.some "a") Option.none Option.none Option.none
      (PyVal.int 100) false remoteOK =
      Except.ok (Outcome.error (JValue.str "q must be at least 2 characters"), []) :=
  ⟨by decide, C3_short_query_rejected cfg0 (Option.some "a") Option.none
    Option.none Option.none (PyVal.int 100) false remoteOK (by decide)⟩

/-- C4 (counterexample): the empty scope string is falsy, so `(scope or
"all")` silently replaces it with "all": although "".lower() is not in the
allowed set, `search_party(q="ab", scope="")` returns no scope error and
does issue a network call. -/
theorem C4_counterexample :
    ALLOWED_SCOPES.contains (pyLower "") = false ∧
    search_party cfg0 (Option.some "ab") (Option.some "") Option.none Option.none
      (PyVal.int 100) false remoteOK =
    Except.ok (Outcome.success (JValue.arr []),
      [{ endpoint := cfg0.SEARCH_ENDPOINT
         params := [("q", "ab"), ("scope", "all"), ("limit", "100")]
         timeout := 10 }]) := ⟨rfl, rfl⟩

/-- C4 (amended): `search_party` lowercases the scope argument before
checking it, so any case variant of the four allowed values is accepted
("ALL" is forwarded as "all"); every NON-EMPTY scope string whose lowercase
form is not in {all, name, alias, address} yields the error outcome listing
the allowed set with no network call — the empty (or absent) scope, being
falsy, instead falls back to "all". -/
theorem C4_scope_validation :
    (∀ (cfg : Config) (q country city : Option String) (s : String)
      (limit : PyVal) (fuzzy : Bool) (remote : Request → RemoteBehavior),
      2 ≤ (pyStrip (orDefault q "")).length →
      s ≠ "" →
      ALLOWED_SCOPES.contains (pyLower s) = false →
      search_party cfg q (Option.some s) country city limit fuzzy remote =
        Except.ok (Outcome.error (JValue.str scopeErrMsg), []))
    ∧ search_party cfg0 (Option.some "ab") (Option.some "ALL") Option.none
        Option.none (PyVal.int 100) false remoteOK =
      Except.ok (Outcome.success (JValue.arr []),
        [{ endpoint := cfg0.SEARCH_ENDPOINT
           params := [("q", "ab"), ("scope", "all"), ("limit", "100")]
           timeout := 10 }]) := by
  refine ⟨?_, rfl⟩
  intro cfg q country city s limit fuzzy remote hq hs hcontains
  simp only [search_party]
  rw [if_neg (by omega)]
  have hord : orDefault (Option.some s) "all" = s := by
    simp [orDefault, hs]
  rw [hord, if_neg (by simpa using hcontains)]

/-- C4 (witness): the rejection part of the theorem applied at the concrete
invalid scope "bogus" with a valid query. -/
theorem C4_witness :
    (2 ≤ (pyStrip (orDefault (Option.some "ab") "")).length ∧
      ("bogus" : String) ≠ "" ∧
      ALLOWED_SCOPES.contains (pyLower "bogus") = false) ∧
    search_party cfg0 (Option.some "ab") (Option.some "bogus") Option.none
      Option.none (PyVal.int 100) false remoteOK =
      Except.ok (Outcome.error (JValue.str scopeErrMsg), []) :=
  ⟨⟨by decide, by decide, by decide⟩,
    C4_scope_validation.1 cfg0 (Option.some "ab") Option.none Option.none
      "bogus" (PyVal.int 100) false remoteOK (by decide) (by decide) (by decide)⟩

/-- C5: in the outbound search request, the empty country filter is omitted
while the non-empty city is included (the scenario q="ab", country="",
city="NY" with default scope/limit/fuzzy yields exactly the parameters q,
scope="all", limit="100", city="NY" and no country key); and for every call
that issues a request, the parameter fuzzy="true" is present in it exactly
when the fuzzy argument is true. -/
theorem C5_outbound_filters_and_fuzzy :
    (search_party cfg0 (Option.some "ab") (Option.some "all") (Option.some "")
        (Option.some "NY") (PyVal.int 100) false remoteOK =
      Except.ok (Outcome.success (JValue.arr []),
        [{ endpoint := cfg0.SEARCH_ENDPOINT
           params := [("q", "ab"), ("scope", "all"), ("limit", "100"), ("city", "NY")]
           timeout := 10 }]))
    ∧ lookupParam [("q", "ab"), ("scope", "all"), ("limit", "100"), ("city", "NY")]
        "country" = Option.none
    ∧ (∀ (cfg : Config) (q scope country city : Option String) (limit : PyVal)
        (fuzzy : Bool) (remote : Request → RemoteBehavior) (out : Outcome)
        (reqs : List Request) (req : Request),
        search_party cfg q scope country city limit fuzzy remote =
          Except.ok (out, reqs) →
        req ∈ reqs →
        (lookupParam req.params "fuzzy" = Option.some "true" ↔ fuzzy = true)) := by
  refine ⟨rfl, rfl, ?_⟩
  intro cfg q scope country city limit fuzzy remote out reqs req h hmem
  rcases search_party_cases h with ⟨_, hr⟩ | ⟨_, hr⟩ | ⟨lim, req', hl, hreq', hr, _⟩
  · rw [hr] at hmem; simp at hmem
  · rw [hr] at hmem; simp at hmem
  · rw [hr] at hmem
    simp only [List.mem_singleton] at hmem
    subst hmem; subst hreq'
    simp only [lookupParam]
    rw [if_neg (by decide), if_neg (by decide), if_neg (by decide)]
    simp only [List.append_eq, List.nil_append, List.append_assoc]
    rw [lookupParam_optionalFilter_ne "country" country _ "fuzzy" (by decide)]
    rw [lookupParam_optionalFilter_ne "city" city _ "fuzzy" (by decide)]
    cases fuzzy <;> simp [lookupParam]

/-- C5 (witness): the fuzzy-presence part applied at a concrete run with
fuzzy = true, whose issued request carries fuzzy="true". -/
theorem C5_witness :
    lookupParam [("q", "ab"), ("scope", "all"), ("limit", "100"), ("fuzzy", "true")]
      "fuzzy" = Option.some "true" ↔ true = true :=
  C5_outbound_filters_and_fuzzy.2.2 cfg0 (Option.some "ab") (Option.some "all")
    Option.none Option.none (PyVal.int 100) true remoteOK
    (Outcome.success (JValue.arr []))
    [{ endpoint := cfg0.SEARCH_ENDPOINT
       params := [("q", "ab"), ("scope", "all"), ("limit", "100"), ("fuzzy", "true")]
       timeout := 10 }]
    { endpoint := cfg0.SEARCH_ENDPOINT
      params := [("q", "ab"), ("scope", "all"), ("limit", "100"), ("fuzzy", "true")]
      timeout := 10 }
    rfl (by simp)

/-- C6: on a non-2xx HTTP status both handlers return the error outcome
with `_extract_error_message` of the response; that message is the `message`
field of the JSON-parsed body when the body parses to an object holding
one (HTTP 500 with body message "db down" yields error "db down" from the
lookup operation); when the body cannot be parsed as JSON the message is
the composite of status code and raw body text truncated to at most 300
characters. -/
theorem C6_http_error_message :
    (∀ resp : HttpResponse, is2xx resp.status = false →
      lookupHandle (RemoteBehavior.respond resp) =
        Outcome.error (extractErrorMessage resp) ∧
      searchHandle (RemoteBehavior.respond resp) =
        Outcome.error (extractErrorMessage resp))
    ∧ (∀ (resp : HttpResponse) (kvs : List (String × JValue)) (m : JValue),
        resp.json = Except.ok (JValue.obj kvs) →
        lookupKey kvs "message" = Option.some m →
        extractErrorMessage resp = m)
    ∧ ((get_ofac_party_info cfg0 5 remote500).1 = Outcome.error (JValue.str "db down"))
    ∧ (∀ (resp : HttpResponse) (e : String), resp.json = Except.error e →
        extractErrorMessage resp =
          JValue.str (pySlice300
            ("API Error: " ++ toString resp.status ++ " - " ++ resp.text)))
    ∧ (∀ s : String, (pySlice300 s).length ≤ 300) := by
  refine ⟨?_, ?_, rfl, ?_, ?_⟩
  · intro resp h
    constructor <;> simp [lookupHandle, searchHandle, h]
  · intro resp kvs m hj hm
    simp [extractErrorMessage, hj, hm]
  · intro resp e hj
    simp [extractErrorMessage, hj]
  · intro s
    show (s.data.take 300).length ≤ 300
    rw [List.length_take]
    exact min_le_left _ _

/-- C6 (witness): the non-2xx part of the theorem applied at a concrete 500
response whose body does not parse as JSON. -/
theorem C6_witness :
    is2xx 500 = false ∧
    (lookupHandle (RemoteBehavior.respond ⟨500, "boom", Except.error "bad json"⟩) =
       Outcome.error (extractErrorMessage ⟨500, "boom", Except.error "bad json"⟩) ∧
     searchHandle (RemoteBehavior.respond ⟨500, "boom", Except.error "bad json"⟩) =
       Outcome.error (extractErrorMessage ⟨500, "boom", Except.error "bad json"⟩)) :=
  ⟨rfl, C6_http_error_message.1 ⟨500, "boom", Except.error "bad json"⟩ rfl⟩

/-- C7: on a 2xx response whose JSON object body's resultCd field is not
exactly the boolean true (absent, null, "true" and 1 all fail the identity
check), both handlers — and hence both operations — return the error
outcome whose message is the body's message field, or the fallback "API
returned error" when absent. -/
theorem C7_result_code_check :
    (∀ (status : Nat) (text : String) (kvs : List (String × JValue)),
      is2xx status = true →
      isTrueCd (lookupKey kvs "resultCd") = false →
      lookupHandle (RemoteBehavior.respond ⟨status, text, Except.ok (JValue.obj kvs)⟩) =
        Outcome.error ((lookupKey kvs "message").getD (JValue.str "API returned error")) ∧
      searchHandle (RemoteBehavior.respond ⟨status, text, Except.ok (JValue.obj kvs)⟩) =
        Outcome.error ((lookupKey kvs "message").getD (JValue.str "API returned error")))
    ∧ (∀ (cfg : Config) (pid : Int) (status : Nat) (text : String)
        (kvs : List (String × JValue)),
        is2xx status = true →
        isTrueCd (lookupKey kvs "resultCd") = false →
        (get_ofac_party_info cfg pid
          (fun _ => RemoteBehavior.respond ⟨status, text, Except.ok (JValue.obj kvs)⟩)).1 =
          Outcome.error ((lookupKey kvs "message").getD (JValue.str "API returned error")))
    ∧ (∀ (cfg : Config) (q scope country city : Option String) (limit : PyVal)
        (fuzzy : Bool) (status : Nat) (text : String) (kvs : List (String × JValue))
        (out : Outcome) (reqs : List Request),
        is2xx status = true →
        isTrueCd (lookupKey kvs "resultCd") = false →
        search_party cfg q scope country city limit fuzzy
          (fun _ => RemoteBehavior.respond ⟨status, text, Except.ok (JValue.obj kvs)⟩) =
          Except.ok (out, reqs) →
        reqs ≠ [] →
        out = Outcome.error ((lookupKey kvs "message").getD (JValue.str "API returned error"))) := by
  have hhandles : ∀ (status : Nat) (text : String) (kvs : List (String × JValue)),
      is2xx status = true →
      isTrueCd (lookupKey kvs "resultCd") = false →
      lookupHandle (RemoteBehavior.respond ⟨status, text, Except.ok (JValue.obj kvs)⟩) =
        Outcome.error ((lookupKey kvs "message").getD (JValue.str "API returned error")) ∧
      searchHandle (RemoteBehavior.respond ⟨status, text, Except.ok (JValue.obj kvs)⟩) =
        Outcome.error ((lookupKey kvs "message").getD (JValue.str "API returned error")) := by
    intro status text kvs h2 hcd
    constructor <;> simp [lookupHandle, searchHandle, h2, hcd]
  refine ⟨hhandles, ?_, ?_⟩
  · intro cfg pid status text kvs h2 hcd
    exact (hhandles status text kvs h2 hcd).1
  · intro cfg q scope country city limit fuzzy status text kvs out reqs h2 hcd h hne
    rcases search_party_cases h with ⟨_, hr⟩ | ⟨_, hr⟩ | ⟨lim, req', hl, hreq', hr, hout⟩
    · exact absurd hr hne
    · exact absurd hr hne
    · rw [hout]; exact (hhandles status text kvs h2 hcd).2

/-- C7 (witness): the handler part applied at status 200 with resultCd the
number 1 and no message field: the outcome is the generic fallback. -/
theorem C7_witness :
    (is2xx 200 = true ∧
      isTrueCd (lookupKey [("resultCd", JValue.num 1)] "resultCd") = false) ∧
    (lookupHandle (RemoteBehavior.respond
        ⟨200, "", Except.ok (JValue.obj [("resultCd", JValue.num 1)])⟩) =
      Outcome.error (JValue.str "API returned error") ∧
     searchHandle (RemoteBehavior.respond
        ⟨200, "", Except.ok (JValue.obj [("resultCd", JValue.num 1)])⟩) =
      Outcome.error (JValue.str "API returned error")) :=
  ⟨⟨rfl, rfl⟩, C7_result_code_check.1 200 "" [("resultCd", JValue.num 1)] rfl rfl⟩

/-- C8: when the remote answers the lookup for identifier 7 with HTTP 2xx
and body resultCd:true, data:(id:7), the operation returns the success
outcome whose data is exactly that object, and issued the single request
partyId="7". -/
theorem C8_lookup_roundtrip :
    get_ofac_party_info cfg0 7 remote7 =
      (Outcome.success (JValue.obj [("id", JValue.num 7)]),
       [{ endpoint := cfg0.API_ENDPOINT, params := [("partyId", "7")], timeout := 10 }]) := rfl

/-- C9: for every integer party_id (zero and negatives included) and every
remote behaviour, `get_ofac_party_info` performs no validation and issues
exactly one GET to the configured lookup endpoint whose only query
parameter is partyId = str(party_id), with timeout 10 and no retry; its
outcome is the normalization of that single request's behaviour. -/
theorem C9_lookup_request_shape (cfg : Config) (party_id : Int)
    (remote : Request → RemoteBehavior) :
    get_ofac_party_info cfg party_id remote =
      (lookupHandle (remote { endpoint := cfg.API_ENDPOINT
                              params := [("partyId", toString party_id)]
                              timeout := 10 }),
       [{ endpoint := cfg.API_ENDPOINT
          params := [("partyId", toString party_id)]
          timeout := 10 }]) := rfl

/-- C10: a 2xx response whose JSON object body has resultCd exactly true
but no data field still yields the success outcome, with default payload
empty object for the lookup handler and empty list for the search handler
(and hence for the two operations). -/
theorem C10_missing_data_defaults :
    (∀ (status : Nat) (text : String) (kvs : List (String × JValue)),
      is2xx status = true →
      isTrueCd (lookupKey kvs "resultCd") = true →
      lookupKey kvs "data" = Option.none →
      lookupHandle (RemoteBehavior.respond ⟨status, text, Except.ok (JValue.obj kvs)⟩) =
        Outcome.success (JValue.obj []) ∧
      searchHandle (RemoteBehavior.respond ⟨status, text, Except.ok (JValue.obj kvs)⟩) =
        Outcome.success (JValue.arr []))
    ∧ (∀ (cfg : Config) (pid : Int) (status : Nat) (text : String)
        (kvs : List (String × JValue)),
        is2xx status = true →
        isTrueCd (lookupKey kvs "resultCd") = true →
        lookupKey kvs "data" = Option.none →
        (get_ofac_party_info cfg pid
          (fun _ => RemoteBehavior.respond ⟨status, text, Except.ok (JValue.obj kvs)⟩)).1 =
          Outcome.success (JValue.obj []))
    ∧ (∀ (cfg : Config) (q scope country city : Option String) (limit : PyVal)
        (fuzzy : Bool) (status : Nat) (text : String) (kvs : List (String × JValue))
        (out : Outcome) (reqs : List Request),
        is2xx status = true →
        isTrueCd (lookupKey kvs "resultCd") = true →
        lookupKey kvs "data" = Option.none →
        search_party cfg q scope country city limit fuzzy
          (fun _ => RemoteBehavior.respond ⟨status, text, Except.ok (JValue.obj kvs)⟩) =
          Except.ok (out, reqs) →
        reqs ≠ [] →
        out = Outcome.success (JValue.arr [])) := by
  have hhandles : ∀ (status : Nat) (text : String) (kvs : List (String × JValue)),
      is2xx status = true →
      isTrueCd (lookupKey kvs "resultCd") = true →
      lookupKey kvs "data" = Option.none →
      lookupHandle (RemoteBehavior.respond ⟨status, text, Except.ok (JValue.obj kvs)⟩) =
        Outcome.success (JValue.obj []) ∧
      searchHandle (RemoteBehavior.respond ⟨status, text, Except.ok (JValue.obj kvs)⟩) =
        Outcome.success (JValue.arr []) := by
    intro status text kvs h2 hcd hd
    constructor <;> simp [lookupHandle, searchHandle, h2, hcd, hd, pyLen]
  refine ⟨hhandles, ?_, ?_⟩
  · intro cfg pid status text kvs h2 hcd hd
    exact (hhandles status text kvs h2 hcd hd).1
  · intro cfg q scope country city limit fuzzy status text kvs out reqs h2 hcd hd h hne
    rcases search_party_cases h with ⟨_, hr⟩ | ⟨_, hr⟩ | ⟨lim, req', hl, hreq', hr, hout⟩
    · exact absurd hr hne
    · exact absurd hr hne
    · rw [hout]; exact (hhandles status text kvs h2 hcd hd).2

/-- C10 (witness): the handler part applied at a body holding only
resultCd: true. -/
theorem C10_witness :
    (is2xx 200 = true ∧
      isTrueCd (lookupKey [("resultCd", JValue.bool true)] "resultCd") = true ∧
      lookupKey [("resultCd", JValue.bool true)] "data" = Option.none) ∧
    (lookupHandle (RemoteBehavior.respond ⟨200, "", Except.ok okBody⟩) =
        Outcome.success (JValue.obj []) ∧
     searchHandle (RemoteBehavior.respond ⟨200, "", Except.ok okBody⟩) =
        Outcome.success (JValue.arr [])) :=
  ⟨⟨rfl, rfl, rfl⟩,
    C10_missing_data_defaults.1 200 "" [("resultCd", JValue.bool true)] rfl rfl rfl⟩
